import Mathlib

/-!
# ControlInteractivity — shallow embedding

A shallow embedding of `src/cascadia/TerminalControl/ControlInteractivity.cpp`
(the pointer-interaction engine of the terminal control): multi-click counting
(`_NumberOfClicks`), the pointer press / move / release dispatchers, VT mouse
forwarding (`_CanSendVTMouseInput`, `_TrySendMouseEvent`), hyperlink
activation, selection drag, and touch panning.

Modelling conventions:
* Screen coordinates (`winrt::Windows::Foundation::Point`, `float` fields) and
  the scroll offset (`ClampedNumeric<double>`) are modelled as exact rationals
  `ℚ`; terminal-cell coordinates (`til::point`) as integer pairs.
* `Timestamp` (`uint64`) values are `Nat`; the only machine-arithmetic
  operation performed on them, `UInt64Sub`, fails exactly when the subtraction
  would underflow, and `THROW_IF_FAILED` turns that failure into an exception,
  so `numberOfClicks` returns `Except Unit _` with `.error ()` in that case.
* `_multiClickCounter` is a C++ `unsigned int`; its increment wraps modulo
  `2^32`, written explicitly.
* `distance >= threshold` in `PointerMoved`, where
  `distance = sqrt(dx^2 + dy^2)`, is expressed square-root-free by `sqrtGe`:
  for `dsq ≥ 0`, `Real.sqrt dsq ≥ t ↔ (t ≤ 0 ∨ t^2 ≤ dsq)`.
* The terminal core (`_core`, always non-null: it is constructed in the
  constructor) is an environment record `Core` of query answers; mutating
  capability calls are recorded as an `Effect` trace in call order.
  `LeftClickOnTerminal` receives `_selectionNeedsToBeCopied` by reference,
  so the environment supplies the value the core leaves in it.
-/

namespace ControlInteractivity

/-- `winrt::Windows::Foundation::Point` (float X, Y), modelled over `ℚ`. -/
structure Point where
  x : ℚ
  y : ℚ
  deriving DecidableEq, Repr

/-- `til::point`: a terminal-cell position (integer coordinates). -/
structure TilPoint where
  x : ℤ
  y : ℤ
  deriving DecidableEq, Repr

/-- `winrt::Windows::Devices::Input::PointerDeviceType`. -/
inductive DeviceType where
  | mouse
  | pen
  | touch
  deriving DecidableEq, Repr

/-- `winrt::Windows::UI::Input::PointerUpdateKind` (the cases inspected by
`_TrySendMouseEvent` and `PointerReleased`; every other kind is `other`). -/
inductive PointerUpdateKind where
  | leftButtonPressed
  | leftButtonReleased
  | middleButtonPressed
  | middleButtonReleased
  | rightButtonPressed
  | rightButtonReleased
  | other
  deriving DecidableEq, Repr

/-- The fields of `PointerPointProperties` read by the code. -/
structure PointerPointProps where
  isLeftButtonPressed : Bool
  isMiddleButtonPressed : Bool
  isRightButtonPressed : Bool
  pointerUpdateKind : PointerUpdateKind
  mouseWheelDelta : ℤ
  isHorizontalMouseWheel : Bool
  contactRect : Point
  deriving DecidableEq, Repr

/-- The fields of `winrt::Windows::UI::Input::PointerPoint` read by the code:
position, timestamp (`uint64`, as `Nat`), and properties. -/
structure PointerPoint where
  position : Point
  timestamp : Nat
  props : PointerPointProps
  deriving DecidableEq, Repr

/-- `ControlKeyStates`: only the Alt/Shift/Ctrl predicates are consulted. -/
structure Modifiers where
  alt : Bool
  shift : Bool
  ctrl : Bool
  deriving DecidableEq, Repr

/-- The terminal-core capability surface consulted by the interactivity layer,
as an environment of query answers.  `hyperlinkAt` is `GetHyperlink` (empty
string = no link).  `leftClickFlagOut` gives the value `LeftClickOnTerminal`
leaves in the by-reference `_selectionNeedsToBeCopied` argument, as a function
of the value passed in. -/
structure Core where
  hyperlinkAt : TilPoint → String
  isVtMouseModeEnabled : Bool
  hasSelection : Bool
  copyOnSelect : Bool
  isInReadOnlyMode : Bool
  fontWidth : ℤ
  fontHeight : ℤ
  rendererScale : ℚ
  scrollOffset : ℚ
  leftClickFlagOut : Bool → Bool

/-- A mutating capability call or outward signal, recorded in call order. -/
inductive Effect where
  | sendMouseEvent (pos : TilPoint) (uiButton : ℕ) (mods : Modifiers)
      (wheelDelta : ℤ) (leftHeld middleHeld rightHeld : Bool)
  | leftClickOnTerminal (pos : TilPoint) (clickCount : ℕ)
      (altHeld shiftHeld isOnOriginalPosition copyPendingIn : Bool)
  | openHyperlink (uri : String)
  | pasteRequested
  | copySelectionToClipboard (singleLine : Bool)
  | setSelectionAnchor (pos : TilPoint)
  | setEndSelectionPoint (pos : TilPoint)
  | userScrollViewport (newOffset : ℚ)
  | updateHoveredCell (pos : TilPoint)
  deriving DecidableEq, Repr

/-- The mutable fields of `ControlInteractivity` touched by the pointer
handlers. -/
structure State where
  touchAnchor : Option Point
  lastMouseClickTimestamp : Nat
  lastMouseClickPos : Point
  multiClickCounter : Nat
  multiClickTimer : Nat
  selectionNeedsToBeCopied : Bool
  singleClickTouchdownPos : Option Point
  singleClickTouchdownTerminalPos : Option TilPoint
  lastMouseClickPosNoSelection : Point
  deriving DecidableEq, Repr

deriving instance DecidableEq for Except

/-- The constructor state: `_touchAnchor{ std::nullopt }`,
`_lastMouseClickTimestamp{}`, `_lastMouseClickPos{}`,
`_selectionNeedsToBeCopied{ false }`; the remaining members are
zero/empty-initialized by their declarations, and `Initialize()` sets
`_multiClickTimer` from the platform double-click interval (a parameter
here). -/
def initState (multiClickTimer : Nat) : State where
  touchAnchor := none
  lastMouseClickTimestamp := 0
  lastMouseClickPos := ⟨0, 0⟩
  multiClickCounter := 0
  multiClickTimer := multiClickTimer
  selectionNeedsToBeCopied := false
  singleClickTouchdownPos := none
  singleClickTouchdownTerminalPos := none
  lastMouseClickPosNoSelection := ⟨0, 0⟩

/-- `std::round` / `til::math::rounding`: round half away from zero (for
nonnegative arguments this agrees with Mathlib's round-half-up `round`). -/
def roundHalfAway (q : ℚ) : ℤ :=
  if 0 ≤ q then round q else -round (-q)

/-- `fontSize.scale(til::math::rounding, 1.0f / _core->RendererScale())`:
the font cell size converted from pixels to device-independent units,
each axis rounded to an integer. -/
def fontSizeInDips (core : Core) : ℤ × ℤ :=
  (roundHalfAway ((core.fontWidth : ℚ) * (1 / core.rendererScale)),
   roundHalfAway ((core.fontHeight : ℚ) * (1 / core.rendererScale)))

/-- `sqrt dsq ≥ thr` for `dsq ≥ 0`, written without square roots:
a square root is nonnegative, so the comparison holds iff `thr ≤ 0` or
`thr^2 ≤ dsq`. -/
def sqrtGe (dsq thr : ℚ) : Bool :=
  thr ≤ 0 ∨ thr ^ 2 ≤ dsq

/-- Squared euclidean distance between two screen points
(`powf(x1-x2,2) + powf(y1-y2,2)`). -/
def distSq (p q : Point) : ℚ :=
  (p.x - q.x) ^ 2 + (p.y - q.y) ^ 2

/-- `_NumberOfClicks(clickPos, clickTime)`.  `UInt64Sub` fails (and
`THROW_IF_FAILED` throws) when `clickTime < _lastMouseClickTimestamp`;
otherwise the counter resets to 1 on a different position or an expired
multi-click window, else increments (wrapping at `2^32`, an `unsigned int`),
and the stored position and timestamp are updated. -/
def numberOfClicks (s : State) (clickPos : Point) (clickTime : Nat) :
    Except Unit (Nat × State) :=
  if clickTime < s.lastMouseClickTimestamp then
    .error ()
  else
    let delta := clickTime - s.lastMouseClickTimestamp
    let counter :=
      if clickPos ≠ s.lastMouseClickPos ∨ delta > s.multiClickTimer then 1
      else (s.multiClickCounter + 1) % 2 ^ 32
    .ok (counter,
      { s with
        multiClickCounter := counter
        lastMouseClickTimestamp := clickTime
        lastMouseClickPos := clickPos })

/-- `CopySelectionToClipboard(singleLine, formats)`: `_core` is non-null, so
the flag is cleared and the core copy call recorded. -/
def copySelectionToClipboard (s : State) (singleLine : Bool) :
    State × List Effect :=
  ({ s with selectionNeedsToBeCopied := false },
   [.copySelectionToClipboard singleLine])

/-- `_CanSendVTMouseInput(modifiers)`: false when Shift is held, otherwise
the core's VT mouse-mode answer. -/
def canSendVTMouseInput (core : Core) (mods : Modifiers) : Bool :=
  if mods.shift then false else core.isVtMouseModeEnabled

/-- `WM_LBUTTONDOWN` etc.: the window-message constants used by
`_TrySendMouseEvent`. -/
def WM_MOUSEMOVE : ℕ := 0x0200

def WM_LBUTTONDOWN : ℕ := 0x0201

def WM_LBUTTONUP : ℕ := 0x0202

def WM_RBUTTONDOWN : ℕ := 0x0204

def WM_RBUTTONUP : ℕ := 0x0205

def WM_MBUTTONDOWN : ℕ := 0x0207

def WM_MBUTTONUP : ℕ := 0x0208

def WM_MOUSEWHEEL : ℕ := 0x020A

/-- `::base::saturated_cast<short>`: clamp to the `short` range. -/
def saturatedCastShort (n : ℤ) : ℤ :=
  max (-32768) (min 32767 n)

/-- The `switch (props.PointerUpdateKind())` of `_TrySendMouseEvent`. -/
def uiButtonOfKind : PointerUpdateKind → ℕ
  | .leftButtonPressed => WM_LBUTTONDOWN
  | .leftButtonReleased => WM_LBUTTONUP
  | .middleButtonPressed => WM_MBUTTONDOWN
  | .middleButtonReleased => WM_MBUTTONUP
  | .rightButtonPressed => WM_RBUTTONDOWN
  | .rightButtonReleased => WM_RBUTTONUP
  | .other => WM_MOUSEMOVE

/-- `_TrySendMouseEvent(point, modifiers, terminalPosition)`: the
`SendMouseEvent` call it makes (its boolean result is discarded at every call
site).  A nonzero, non-horizontal wheel delta overrides the button code with
`WM_MOUSEWHEEL`. -/
def trySendMouseEventEffect (point : PointerPoint) (mods : Modifiers)
    (terminalPosition : TilPoint) : Effect :=
  let props := point.props
  let sWheelDelta := saturatedCastShort props.mouseWheelDelta
  let uiButton :=
    if sWheelDelta ≠ 0 ∧ ¬props.isHorizontalMouseWheel then WM_MOUSEWHEEL
    else uiButtonOfKind props.pointerUpdateKind
  .sendMouseEvent terminalPosition uiButton mods sWheelDelta
    props.isLeftButtonPressed props.isMiddleButtonPressed
    props.isRightButtonPressed

/-- `PointerPressed(point, modifiers, focused, terminalPosition, type)`.
Branch order for mouse/pen: Ctrl+left over a non-empty hyperlink (gated on
click count 1), else VT forwarding, else left-click selection entry, else
right-click copy/paste.  Touch records the pan anchor.  `.error ()` models the
`_NumberOfClicks` throw (which occurs before any state mutation). -/
def pointerPressed (core : Core) (s : State) (point : PointerPoint)
    (mods : Modifiers) (_focused : Bool) (terminalPosition : TilPoint)
    (type : DeviceType) : Except Unit (State × List Effect) :=
  match type with
  | .mouse | .pen =>
    let altEnabled := mods.alt
    let shiftEnabled := mods.shift
    let ctrlEnabled := mods.ctrl
    let cursorPosition := point.position
    let hyperlink := core.hyperlinkAt terminalPosition
    if point.props.isLeftButtonPressed ∧ ctrlEnabled ∧ hyperlink ≠ "" then
      match numberOfClicks s cursorPosition point.timestamp with
      | .error e => .error e
      | .ok (clickCount, s1) =>
        if clickCount = 1 then .ok (s1, [.openHyperlink hyperlink])
        else .ok (s1, [])
    else if canSendVTMouseInput core mods then
      .ok (s, [trySendMouseEventEffect point mods terminalPosition])
    else if point.props.isLeftButtonPressed then
      match numberOfClicks s cursorPosition point.timestamp with
      | .error e => .error e
      | .ok (clickCount, s1) =>
        let MAX_CLICK_COUNT : ℕ := 3
        let multiClickMapper :=
          if clickCount > MAX_CLICK_COUNT then
            ((clickCount + MAX_CLICK_COUNT - 1) % 2 ^ 32) % MAX_CLICK_COUNT + 1
          else clickCount
        let s2 :=
          if multiClickMapper = 1 ∧ ¬core.hasSelection then
            { s1 with
              singleClickTouchdownPos := some cursorPosition
              singleClickTouchdownTerminalPos := some terminalPosition
              lastMouseClickPosNoSelection := cursorPosition }
          else s1
        let isOnOriginalPosition :=
          s2.lastMouseClickPosNoSelection = cursorPosition
        .ok ({ s2 with
                selectionNeedsToBeCopied :=
                  core.leftClickFlagOut s2.selectionNeedsToBeCopied },
             [.leftClickOnTerminal terminalPosition multiClickMapper
                altEnabled shiftEnabled isOnOriginalPosition
                s2.selectionNeedsToBeCopied])
    else if point.props.isRightButtonPressed then
      if core.copyOnSelect ∨ ¬core.hasSelection then
        .ok (s, [.pasteRequested])
      else
        .ok (copySelectionToClipboard s shiftEnabled)
    else
      .ok (s, [])
  | .touch =>
    .ok ({ s with touchAnchor := some point.props.contactRect }, [])

/-- `_SetEndSelectionPoint(terminalPosition)`. -/
def setEndSelectionPoint (s : State) (terminalPosition : TilPoint) :
    State × List Effect :=
  ({ s with selectionNeedsToBeCopied := true },
   [.setEndSelectionPoint terminalPosition])

/-- The selection-update block of a focused, left-held, non-VT-forwarded
mouse/pen move: if a touchdown point is live and the euclidean distance from
it to the cursor has reached a quarter of the smaller font-cell dimension in
DIPs, set the selection anchor at the *current* cell and clear the touchdown
state; then unconditionally extend the selection end
(`_SetEndSelectionPoint`). -/
def moveSelectionUpdate (core : Core) (s : State) (cursorPosition : Point)
    (terminalPosition : TilPoint) : State × List Effect :=
  let (s1, effs1) :=
    match s.singleClickTouchdownPos with
    | some touchdownPoint =>
      let dips := fontSizeInDips core
      let threshold : ℚ := (min dips.1 dips.2 : ℤ) / 4
      if sqrtGe (distSq cursorPosition touchdownPoint) threshold then
        ({ s with
            singleClickTouchdownPos := none
            singleClickTouchdownTerminalPos := none },
         [Effect.setSelectionAnchor terminalPosition])
      else (s, [])
    | none => (s, [])
  let (s2, effs2) := setEndSelectionPoint s1 terminalPosition
  (s2, effs1 ++ effs2)

/-- `PointerMoved(point, modifiers, focused, terminalPosition, type)`.
Mouse/pen: VT forwarding needs focus and not-read-only; otherwise a focused
left-held move runs `moveSelectionUpdate`; `UpdateHoveredCell` runs for every
mouse/pen move.  Touch: a focused move with a live anchor pans the viewport
once `|dy|` exceeds half a cell height in DIPs, re-anchoring at the new
point. -/
def pointerMoved (core : Core) (s : State) (point : PointerPoint)
    (mods : Modifiers) (focused : Bool) (terminalPosition : TilPoint)
    (type : DeviceType) : State × List Effect :=
  let cursorPosition := point.position
  match type with
  | .mouse | .pen =>
    if focused ∧ ¬core.isInReadOnlyMode ∧ canSendVTMouseInput core mods then
      (s, [trySendMouseEventEffect point mods terminalPosition,
           .updateHoveredCell terminalPosition])
    else if focused ∧ point.props.isLeftButtonPressed then
      let (s1, effs1) := moveSelectionUpdate core s cursorPosition
        terminalPosition
      (s1, effs1 ++ [.updateHoveredCell terminalPosition])
    else
      (s, [.updateHoveredCell terminalPosition])
  | .touch =>
    match s.touchAnchor with
    | some anchor =>
      if focused then
        let newTouchPoint := point.props.contactRect
        let dips := fontSizeInDips core
        let heightDips : ℚ := (dips.2 : ℤ)
        let dy := newTouchPoint.y - anchor.y
        if |dy| > heightDips / 2 then
          let numRows := -1 * (dy / heightDips)
          let newValue := numRows + core.scrollOffset
          ({ s with touchAnchor := some newTouchPoint },
           [.userScrollViewport newValue])
        else (s, [])
      else (s, [])
    | none => (s, [])

/-- `PointerReleased(point, modifiers, focused, terminalPosition, type)`.
A VT-forwarded mouse/pen release returns early (before the touchdown-clearing
statements at the end of the function); otherwise a left release with
copy-on-select and a pending copy performs it; touch clears the pan anchor;
the two `_singleClickTouchdown…` members are cleared by the statements after
the branch. -/
def pointerReleased (core : Core) (s : State) (point : PointerPoint)
    (mods : Modifiers) (_focused : Bool) (terminalPosition : TilPoint)
    (type : DeviceType) : State × List Effect :=
  match type with
  | .mouse | .pen =>
    if ¬core.isInReadOnlyMode ∧ canSendVTMouseInput core mods then
      (s, [trySendMouseEventEffect point mods terminalPosition])
    else
      let (s1, effs1) :=
        if core.copyOnSelect ∧
            point.props.pointerUpdateKind = .leftButtonReleased ∧
            s.selectionNeedsToBeCopied then
          copySelectionToClipboard s false
        else (s, [])
      ({ s1 with
          singleClickTouchdownPos := none
          singleClickTouchdownTerminalPos := none }, effs1)
  | .touch =>
    ({ s with
        touchAnchor := none
        singleClickTouchdownPos := none
        singleClickTouchdownTerminalPos := none }, [])

/-- One pointer event as delivered by the host: the handler invoked, its
arguments, and the terminal core's answers at that instant (the core is a
separate component, so its answers may differ from event to event). -/
inductive PEvent where
  | pressed (core : Core) (point : PointerPoint) (mods : Modifiers)
      (focused : Bool) (terminalPosition : TilPoint) (type : DeviceType)
  | moved (core : Core) (point : PointerPoint) (mods : Modifiers)
      (focused : Bool) (terminalPosition : TilPoint) (type : DeviceType)
  | released (core : Core) (point : PointerPoint) (mods : Modifiers)
      (focused : Bool) (terminalPosition : TilPoint) (type : DeviceType)

/-- The device kind an event reports. -/
def PEvent.device : PEvent → DeviceType
  | .pressed _ _ _ _ _ ty => ty
  | .moved _ _ _ _ _ ty => ty
  | .released _ _ _ _ _ ty => ty

/-- The state after one event.  The only throwing path, `_NumberOfClicks`,
throws before any member is written, so a throwing `PointerPressed` leaves
the state unchanged. -/
def stepState (s : State) : PEvent → State
  | .pressed core pt m f tp ty =>
    match pointerPressed core s pt m f tp ty with
    | .ok (s', _) => s'
    | .error _ => s
  | .moved core pt m f tp ty => (pointerMoved core s pt m f tp ty).1
  | .released core pt m f tp ty => (pointerReleased core s pt m f tp ty).1

/-- The state after a finite sequence of pointer events. -/
def runEvents (s : State) (es : List PEvent) : State :=
  es.foldl stepState s

/-- Recognizer for `SendMouseEvent` calls in an effect trace. -/
def Effect.isSendMouseEvent : Effect → Bool
  | .sendMouseEvent _ _ _ _ _ _ _ => true
  | _ => false

/-- Recognizer for `LeftClickOnTerminal` calls in an effect trace. -/
def Effect.isLeftClickOnTerminal : Effect → Bool
  | .leftClickOnTerminal _ _ _ _ _ _ => true
  | _ => false

/-- Recognizer for hyperlink-activation signals in an effect trace. -/
def Effect.isOpenHyperlink : Effect → Bool
  | .openHyperlink _ => true
  | _ => false

/-- Recognizer for clipboard-copy calls in an effect trace. -/
def Effect.isCopySelectionToClipboard : Effect → Bool
  | .copySelectionToClipboard _ => true
  | _ => false

/-- Recognizer for viewport-scroll requests in an effect trace. -/
def Effect.isUserScrollViewport : Effect → Bool
  | .userScrollViewport _ => true
  | _ => false

/-- The counter value `_NumberOfClicks` computes on the non-throwing path:
reset to 1 on a different position or an expired window, else the stored
counter plus one, wrapped at `2^32`. -/
def clickCountVal (s : State) (clickPos : Point) (clickTime : Nat) : Nat :=
  if clickPos ≠ s.lastMouseClickPos ∨
      clickTime - s.lastMouseClickTimestamp > s.multiClickTimer then 1
  else (s.multiClickCounter + 1) % 2 ^ 32

/-- A terminal-core environment answering "no"/defaults everywhere: no
hyperlinks, VT mouse mode off, no selection, copy-on-select off, not
read-only, an 8×16-pixel font at render scale 1, scroll offset 0, and a
`LeftClickOnTerminal` that leaves the by-reference flag unchanged. -/
def baseCore : Core where
  hyperlinkAt := fun _ => ""
  isVtMouseModeEnabled := false
  hasSelection := false
  copyOnSelect := false
  isInReadOnlyMode := false
  fontWidth := 8
  fontHeight := 16
  rendererScale := 1
  scrollOffset := 0
  leftClickFlagOut := id

/-- No modifier keys held. -/
def mods0 : Modifiers := ⟨false, false, false⟩

/-- Only Ctrl held. -/
def modsCtrl : Modifiers := ⟨false, false, true⟩

/-- A left-button press at the origin, timestamp 0. -/
def ptLeftPress : PointerPoint :=
  ⟨⟨0, 0⟩, 0, ⟨true, false, false, .leftButtonPressed, 0, false, ⟨0, 0⟩⟩⟩

/-- A left-button press at the origin, timestamp 5. -/
def ptLeftPress5 : PointerPoint :=
  ⟨⟨0, 0⟩, 5, ⟨true, false, false, .leftButtonPressed, 0, false, ⟨0, 0⟩⟩⟩

/-- A core with a hyperlink under every cell. -/
def coreLink : Core := { baseCore with hyperlinkAt := fun _ => "http://a" }

/-- A core with an active selection. -/
def coreSel : Core := { baseCore with hasSelection := true }

/-- A right-button press at the origin, timestamp 0. -/
def ptRightPress : PointerPoint :=
  ⟨⟨0, 0⟩, 0, ⟨false, false, true, .rightButtonPressed, 0, false, ⟨0, 0⟩⟩⟩

/-- A core with both a hyperlink under every cell and VT mouse mode on. -/
def coreLinkVT : Core := { coreLink with isVtMouseModeEnabled := true }

/-- A core with VT mouse mode on and nothing else. -/
def coreVTOnly : Core := { baseCore with isVtMouseModeEnabled := true }

/-- A core with VT mouse mode on but in read-only mode. -/
def coreVTRO : Core :=
  { baseCore with isVtMouseModeEnabled := true, isInReadOnlyMode := true }

/-- A buttonless move sample at the origin, timestamp 0. -/
def ptMove : PointerPoint :=
  ⟨⟨0, 0⟩, 0, ⟨false, false, false, .other, 0, false, ⟨0, 0⟩⟩⟩

/-- A core with VT mouse mode on and copy-on-select on. -/
def coreVTCopy : Core :=
  { baseCore with isVtMouseModeEnabled := true, copyOnSelect := true }

/-- A core with copy-on-select on only. -/
def coreCopy : Core := { baseCore with copyOnSelect := true }

/-- A state mid-drag: pending copy owed, touchdown live at the origin. -/
def sDrag : State :=
  { initState 500000 with
      selectionNeedsToBeCopied := true
      singleClickTouchdownPos := some ⟨0, 0⟩
      singleClickTouchdownTerminalPos := some ⟨0, 0⟩ }

/-- A left-button release at the origin, timestamp 0. -/
def ptLeftRelease : PointerPoint :=
  ⟨⟨0, 0⟩, 0, ⟨false, false, false, .leftButtonReleased, 0, false, ⟨0, 0⟩⟩⟩

/-- A state with a touchdown captured at the origin (no pending copy). -/
def sTouchdown00 : State :=
  { initState 500000 with
      singleClickTouchdownPos := some ⟨0, 0⟩
      singleClickTouchdownTerminalPos := some ⟨0, 0⟩ }

/-- A left-held move far from the origin (screen x = 100). -/
def ptDragFar : PointerPoint :=
  ⟨⟨100, 0⟩, 0, ⟨true, false, false, .other, 0, false, ⟨0, 0⟩⟩⟩

/-- A state with a live touch anchor at (100,100). -/
def sAnchor100 : State :=
  { initState 500000 with touchAnchor := some ⟨100, 100⟩ }

/-- A touch move whose contact rectangle origin is (100, 109.6): a vertical
delta of 9.6 = 0.6 × the 16-DIP cell height of `baseCore`. -/
def ptTouchMoveFar : PointerPoint :=
  ⟨⟨0, 0⟩, 0, ⟨false, false, false, .other, 0, false, ⟨100, 548 / 5⟩⟩⟩

/-- A touch release sample. -/
def ptTouchRelease : PointerPoint :=
  ⟨⟨0, 0⟩, 0, ⟨false, false, false, .other, 0, false, ⟨100, 100⟩⟩⟩

/-- A touch-down sample with contact rectangle origin (5,5). -/
def ptTouchDown : PointerPoint :=
  ⟨⟨0, 0⟩, 10, ⟨false, false, false, .other, 0, false, ⟨5, 5⟩⟩⟩

/-- A mouse left press (capturing a touchdown) followed by a touch press
(capturing a pan anchor): the event sequence of the C4 counterexample. -/
def evtsC4 : List PEvent :=
  [.pressed baseCore ptLeftPress mods0 true ⟨0, 0⟩ .mouse,
   .pressed baseCore ptTouchDown mods0 true ⟨0, 0⟩ .touch]

/-! ## Theorems -/

theorem numberOfClicks_ok_of_le (s : State) (p : Point) (t : Nat)
    (h : s.lastMouseClickTimestamp ≤ t) :
    numberOfClicks s p t =
      .ok (clickCountVal s p t,
        { s with
          multiClickCounter := clickCountVal s p t
          lastMouseClickTimestamp := t
          lastMouseClickPos := p }) := by
  unfold numberOfClicks clickCountVal
  rw [if_neg (by omega : ¬ t < s.lastMouseClickTimestamp)]

theorem numberOfClicks_ok_inv (s : State) (p : Point) (t : Nat) (c : Nat)
    (s' : State) (h : numberOfClicks s p t = .ok (c, s')) :
    s' = { s with
            multiClickCounter := c
            lastMouseClickTimestamp := t
            lastMouseClickPos := p } := by
  unfold numberOfClicks at h
  split at h
  · exact absurd h (by simp)
  · simp only [Except.ok.injEq, Prod.mk.injEq] at h
    obtain ⟨hc, hs⟩ := h
    subst hc
    exact hs.symm

theorem numberOfClicks_error_iff (s : State) (p : Point) (t : Nat) :
    numberOfClicks s p t = .error () ↔ t < s.lastMouseClickTimestamp := by
  unfold numberOfClicks
  split
  · simp [*]
  · simp [*]

/-- C9 (counterexample): at a stored click counter of `2^32 - 1` (a C++
`unsigned int` at its maximum), a same-position in-window click returns `0`,
not the previous count plus one: the increment wraps modulo `2^32`, so the
returned counts are not strictly increasing there. -/
theorem C9_counterexample :
    numberOfClicks { initState 500000 with multiClickCounter := 2 ^ 32 - 1 }
        ⟨0, 0⟩ 0 =
      .ok (0, { initState 500000 with multiClickCounter := 0 }) ∧
    (0 : ℕ) ≠
      { initState 500000 with
          multiClickCounter := 2 ^ 32 - 1 : State }.multiClickCounter + 1 := by
  constructor
  · decide
  · decide

/-- C9 (corrected): for a registered click whose timestamp is not earlier
than the stored one (`UInt64Sub` would throw otherwise, see C5), the returned
count is 1 when the position differs at all (the implementation's pixel
epsilon is zero) or the stored window is exceeded, and otherwise the stored
counter plus one wrapped modulo `2^32`; in both cases the stored position and
timestamp are updated to the call's arguments. -/
theorem C9_register_click (s : State) (p : Point) (t : Nat)
    (h : s.lastMouseClickTimestamp ≤ t) :
    numberOfClicks s p t =
      .ok ((if p ≠ s.lastMouseClickPos ∨
                t - s.lastMouseClickTimestamp > s.multiClickTimer then 1
            else (s.multiClickCounter + 1) % 2 ^ 32),
        { s with
          multiClickCounter :=
            if p ≠ s.lastMouseClickPos ∨
                t - s.lastMouseClickTimestamp > s.multiClickTimer then 1
            else (s.multiClickCounter + 1) % 2 ^ 32
          lastMouseClickTimestamp := t
          lastMouseClickPos := p }) :=
  numberOfClicks_ok_of_le s p t h

/-- C9 (witness): a first click at a fresh position resets the count to 1 and
stores the new position and timestamp. -/
theorem C9_witness :
    numberOfClicks (initState 500000) ⟨1, 2⟩ 3 =
      .ok (1, { initState 500000 with
                  multiClickCounter := 1
                  lastMouseClickTimestamp := 3
                  lastMouseClickPos := ⟨1, 2⟩ }) := by
  rw [C9_register_click (initState 500000) ⟨1, 2⟩ 3 (by decide)]
  decide

/-- C5 (counterexample): a left-button mouse press whose timestamp (5) is
earlier than the stored last-click timestamp (10) reaches `_NumberOfClicks`,
whose checked `UInt64Sub` fails, and `THROW_IF_FAILED` throws: processing
does not degrade to a no-op on this unexpected input. -/
theorem C5_counterexample :
    pointerPressed baseCore
        { initState 500000 with lastMouseClickTimestamp := 10 }
        ptLeftPress5 mods0 true ⟨0, 0⟩ .mouse = .error () := by
  decide

/-- C5 (corrected): pointer-press processing never throws provided the press
timestamp is not earlier than the stored last-click timestamp (pointer-move
and pointer-release processing are total functions and never throw); and when
a press does throw, the throw happens before any member is written, so the
observable state is unchanged. -/
theorem C5_no_throw (core : Core) (s : State) (point : PointerPoint)
    (mods : Modifiers) (f : Bool) (tp : TilPoint) (ty : DeviceType)
    (h : s.lastMouseClickTimestamp ≤ point.timestamp) :
    (∃ r, pointerPressed core s point mods f tp ty = .ok r) ∧
    (∀ core' s' pt' m' f' tp' ty',
        pointerPressed core' s' pt' m' f' tp' ty' = .error () →
        stepState s' (.pressed core' pt' m' f' tp' ty') = s') := by
  constructor
  · have hn := numberOfClicks_ok_of_le s point.position point.timestamp h
    cases ty
    case touch => exact ⟨_, rfl⟩
    all_goals
      simp only [pointerPressed, hn]
      split_ifs <;> exact ⟨_, rfl⟩
  · intro core' s' pt' m' f' tp' ty' herr
    simp [stepState, herr]

/-- C5 (witness): a fresh left press at timestamp 0 (not earlier than the
stored timestamp 0) is processed without an error. -/
theorem C5_witness :
    ∃ r, pointerPressed baseCore (initState 500000) ptLeftPress mods0 true
          ⟨0, 0⟩ .mouse = .ok r :=
  (C5_no_throw baseCore (initState 500000) ptLeftPress mods0 true
    ⟨0, 0⟩ .mouse (by decide)).1

/-- C7 (confirmed): a Ctrl+left press on a mouse or pen device over a cell
with a non-empty hyperlink raises exactly one hyperlink-activation signal
carrying that URI when the registered click count is 1, and raises none when
the count is not 1 (the click state is updated either way). -/
theorem C7_hyperlink_once (core : Core) (s : State) (point : PointerPoint)
    (mods : Modifiers) (f : Bool) (tp : TilPoint) (ty : DeviceType)
    (c : Nat) (s' : State)
    (hty : ty = .mouse ∨ ty = .pen)
    (hleft : point.props.isLeftButtonPressed = true)
    (hctrl : mods.ctrl = true)
    (hlink : core.hyperlinkAt tp ≠ "")
    (hclicks : numberOfClicks s point.position point.timestamp = .ok (c, s')) :
    (c = 1 → pointerPressed core s point mods f tp ty =
        .ok (s', [.openHyperlink (core.hyperlinkAt tp)])) ∧
    (c ≠ 1 → pointerPressed core s point mods f tp ty = .ok (s', [])) := by
  constructor <;> intro hc <;> rcases hty with rfl | rfl <;>
    simp [pointerPressed, hclicks, hleft, hctrl, hlink, hc]

/-- C7 (witness): a first-click Ctrl+left press over a hyperlink raises the
signal with that URI. -/
theorem C7_witness :
    pointerPressed coreLink (initState 500000) ptLeftPress modsCtrl true
        ⟨0, 0⟩ .mouse =
      .ok ({ initState 500000 with multiClickCounter := 1 },
           [.openHyperlink "http://a"]) := by
  have h := (C7_hyperlink_once coreLink (initState 500000) ptLeftPress
    modsCtrl true ⟨0, 0⟩ .mouse 1
    { initState 500000 with multiClickCounter := 1 }
    (Or.inl rfl) (by decide) (by decide) (by decide) (by decide)).1 rfl
  simpa using h

/-- C10 (confirmed): a right-button press on a mouse or pen device, with VT
forwarding not applying, no left button held, an active selection and
copy-on-select disabled, performs exactly one clipboard copy whose
single-line-collapse argument is the Shift-held flag, and clears the
pending-copy flag. -/
theorem C10_right_click_copy (core : Core) (s : State) (point : PointerPoint)
    (mods : Modifiers) (f : Bool) (tp : TilPoint) (ty : DeviceType)
    (hty : ty = .mouse ∨ ty = .pen)
    (hvt : canSendVTMouseInput core mods = false)
    (hleft : point.props.isLeftButtonPressed = false)
    (hright : point.props.isRightButtonPressed = true)
    (hsel : core.hasSelection = true)
    (hcos : core.copyOnSelect = false) :
    pointerPressed core s point mods f tp ty =
      .ok ({ s with selectionNeedsToBeCopied := false },
           [.copySelectionToClipboard mods.shift]) := by
  rcases hty with rfl | rfl <;>
    simp [pointerPressed, copySelectionToClipboard, hvt, hleft, hright, hsel,
      hcos]

/-- C10 (witness): a Shift+right-click with a selection and copy-on-select
off copies with the single-line argument true. -/
theorem C10_witness :
    pointerPressed coreSel (initState 500000) ptRightPress
        ⟨false, true, false⟩ true ⟨0, 0⟩ .mouse =
      .ok ({ initState 500000 with selectionNeedsToBeCopied := false },
           [.copySelectionToClipboard true]) := by
  have h := C10_right_click_copy coreSel (initState 500000) ptRightPress
    ⟨false, true, false⟩ true ⟨0, 0⟩ .mouse (Or.inl rfl) (by decide)
    (by decide) (by decide) (by decide) (by decide)
  simpa using h

/-- C1 (counterexample): with VT mouse mode enabled and Shift not held, a
Ctrl+left-button press (click count 1) over a cell with a non-empty
hyperlink raises the hyperlink-activation signal instead of being forwarded:
the trace is exactly one `openHyperlink` and contains no `SendMouseEvent`
call (hyperlinks take precedence over VT forwarding). -/
theorem C1_counterexample :
    coreLinkVT.isVtMouseModeEnabled = true ∧
    modsCtrl.shift = false ∧
    ptLeftPress.props.isLeftButtonPressed = true ∧
    pointerPressed coreLinkVT (initState 500000) ptLeftPress modsCtrl true
        ⟨0, 0⟩ .mouse =
      .ok ({ initState 500000 with multiClickCounter := 1 },
           [Effect.openHyperlink "http://a"]) ∧
    List.countP (fun e => e.isSendMouseEvent)
      [Effect.openHyperlink "http://a"] = 0 := by
  refine ⟨rfl, rfl, rfl, by decide, rfl⟩

/-- C1 (corrected): a left-button press on a mouse device with VT mouse mode
enabled and Shift not held is forwarded to `SendMouseEvent` — and invokes
neither `LeftClickOnTerminal` nor the hyperlink signal — provided
additionally that the higher-precedence hyperlink branch does not apply
(Ctrl not held, or no hyperlink at the cell). -/
theorem C1_vt_forwarded_press (core : Core) (s : State)
    (point : PointerPoint) (mods : Modifiers) (f : Bool) (tp : TilPoint)
    (hleft : point.props.isLeftButtonPressed = true)
    (hvt : core.isVtMouseModeEnabled = true)
    (hshift : mods.shift = false)
    (hnolink : ¬(mods.ctrl = true ∧ core.hyperlinkAt tp ≠ "")) :
    pointerPressed core s point mods f tp .mouse =
      .ok (s, [trySendMouseEventEffect point mods tp]) ∧
    (trySendMouseEventEffect point mods tp).isSendMouseEvent = true ∧
    List.countP (fun e => e.isLeftClickOnTerminal)
      [trySendMouseEventEffect point mods tp] = 0 ∧
    List.countP (fun e => e.isOpenHyperlink)
      [trySendMouseEventEffect point mods tp] = 0 := by
  have hcond : ¬(point.props.isLeftButtonPressed = true ∧
      mods.ctrl = true ∧ core.hyperlinkAt tp ≠ "") := by
    rintro ⟨-, hc, hl⟩
    exact hnolink ⟨hc, hl⟩
  refine ⟨?_, rfl, rfl, rfl⟩
  simp [pointerPressed, canSendVTMouseInput, hshift, hvt, hcond]

/-- C1 (witness): with VT mouse mode on and no modifiers, a left press at
the origin is forwarded as a `WM_LBUTTONDOWN` mouse event. -/
theorem C1_witness :
    pointerPressed coreVTOnly (initState 500000) ptLeftPress mods0 true
        ⟨0, 0⟩ .mouse =
      .ok (initState 500000,
           [Effect.sendMouseEvent ⟨0, 0⟩ WM_LBUTTONDOWN mods0 0
              true false false]) := by
  have h := (C1_vt_forwarded_press coreVTOnly (initState 500000) ptLeftPress
    mods0 true ⟨0, 0⟩ (by decide) (by decide) (by decide)
    (by rintro ⟨hc, -⟩; exact absurd hc (by decide))).1
  rw [h]
  decide

/-- C6 (counterexample): read-only mode does change whether an
otherwise-eligible event is forwarded: with VT mouse mode on, Shift not held
(so `_CanSendVTMouseInput` answers true) but the core in read-only mode, a
focused mouse move produces no `SendMouseEvent` call. -/
theorem C6_counterexample :
    canSendVTMouseInput coreVTRO mods0 = true ∧
    List.countP (fun e => e.isSendMouseEvent)
      (pointerMoved coreVTRO (initState 500000) ptMove mods0 true
        ⟨0, 0⟩ .mouse).2 = 0 := by
  refine ⟨rfl, by decide⟩

/-- C6 (corrected): eligibility (`_CanSendVTMouseInput`) holds iff Shift is
not held and the core reports VT mouse mode enabled; but actual forwarding
imposes extra conditions per handler: a mouse/pen move is forwarded iff
additionally the control is focused and the core is not read-only, and a
mouse/pen release is forwarded iff additionally the core is not read-only
(a press forwards on eligibility alone, hyperlink precedence aside). -/
theorem moveSelectionUpdate_no_send (core : Core) (s : State) (cpos : Point)
    (tp : TilPoint) :
    List.countP (fun e => e.isSendMouseEvent)
      (moveSelectionUpdate core s cpos tp).2 = 0 := by
  rcases hs : s.singleClickTouchdownPos with _ | td <;>
    simp only [moveSelectionUpdate, hs]
  · simp [setEndSelectionPoint, Effect.isSendMouseEvent]
  · split_ifs <;> simp [setEndSelectionPoint, Effect.isSendMouseEvent]

theorem C6_forwarding_conditions (core : Core) (mods : Modifiers) :
    (canSendVTMouseInput core mods = (!mods.shift && core.isVtMouseModeEnabled)) ∧
    (∀ (s : State) (point : PointerPoint) (f : Bool) (tp : TilPoint)
        (ty : DeviceType), ty = .mouse ∨ ty = .pen →
      List.countP (fun e => e.isSendMouseEvent)
          (pointerMoved core s point mods f tp ty).2 =
        if f ∧ ¬core.isInReadOnlyMode ∧ canSendVTMouseInput core mods
        then 1 else 0) ∧
    (∀ (s : State) (point : PointerPoint) (f : Bool) (tp : TilPoint)
        (ty : DeviceType), ty = .mouse ∨ ty = .pen →
      List.countP (fun e => e.isSendMouseEvent)
          (pointerReleased core s point mods f tp ty).2 =
        if ¬core.isInReadOnlyMode ∧ canSendVTMouseInput core mods
        then 1 else 0) := by
  refine ⟨?_, ?_, ?_⟩
  · unfold canSendVTMouseInput
    cases hs : mods.shift <;> simp
  · intro s point f tp ty hty
    rcases hty with rfl | rfl <;>
    · by_cases hc : f ∧ ¬core.isInReadOnlyMode ∧ canSendVTMouseInput core mods
      · simp [pointerMoved, hc, trySendMouseEventEffect, Effect.isSendMouseEvent]
      · simp only [pointerMoved]
        rw [if_neg hc, if_neg hc]
        by_cases h2 : f ∧ point.props.isLeftButtonPressed
        · rw [if_pos h2]
          show List.countP _
            ((moveSelectionUpdate core s point.position tp).2 ++
              [Effect.updateHoveredCell tp]) = 0
          rw [List.countP_append, moveSelectionUpdate_no_send]
          simp [List.countP_cons, Effect.isSendMouseEvent]
        · rw [if_neg h2]
          simp [Effect.isSendMouseEvent]
  · intro s point f tp ty hty
    rcases hty with rfl | rfl <;>
    · by_cases hc : ¬core.isInReadOnlyMode ∧ canSendVTMouseInput core mods
      · simp [pointerReleased, hc, trySendMouseEventEffect,
          Effect.isSendMouseEvent]
      · unfold pointerReleased
        rw [if_neg hc]
        split_ifs <;>
          simp [copySelectionToClipboard, Effect.isSendMouseEvent]

/-- C6 (witness): with VT mouse mode on, no modifiers, focused and not
read-only, a mouse move is forwarded exactly once. -/
theorem C6_witness :
    List.countP (fun e => e.isSendMouseEvent)
      (pointerMoved coreVTOnly (initState 500000) ptMove mods0 true
        ⟨0, 0⟩ .mouse).2 = 1 := by
  have h := (C6_forwarding_conditions coreVTOnly mods0).2.1
    (initState 500000) ptMove true ⟨0, 0⟩ .mouse (Or.inl rfl)
  rw [h]
  decide

/-- C3 (counterexample): a VT-forwarded left release (VT mouse mode on, Shift
up, not read-only) returns early: even with copy-on-select on and the
pending-copy flag set, no copy is performed, the flag stays set, and —
contrary to the claim's "in every branch" — the `SelectionTouchdown` state is
NOT cleared. -/
theorem C3_counterexample :
    coreVTCopy.copyOnSelect = true ∧
    ptLeftRelease.props.pointerUpdateKind = .leftButtonReleased ∧
    sDrag.selectionNeedsToBeCopied = true ∧
    pointerReleased coreVTCopy sDrag ptLeftRelease mods0 true ⟨0, 0⟩ .mouse =
      (sDrag,
       [Effect.sendMouseEvent ⟨0, 0⟩ WM_LBUTTONUP mods0 0
          false false false]) ∧
    sDrag.singleClickTouchdownPos = some ⟨0, 0⟩ := by
  refine ⟨rfl, rfl, rfl, by decide, rfl⟩

/-- C3 (corrected): for a mouse/pen release that is NOT VT-forwarded (the
core is read-only or `_CanSendVTMouseInput` is false): if copy-on-select is
on, the released button is the left button and the pending-copy flag is set,
exactly one clipboard copy (non-single-line) is performed and the flag is
cleared, and otherwise no effect is produced and the flag is unchanged; the
`SelectionTouchdown` state is cleared in each of these branches, and a touch
release clears both the pan anchor and the touchdown state.  (A VT-forwarded
release returns early and does not clear the touchdown state.) -/
theorem C3_release (core : Core) (s : State) (point : PointerPoint)
    (mods : Modifiers) (f : Bool) (tp : TilPoint) (ty : DeviceType)
    (hty : ty = .mouse ∨ ty = .pen)
    (hnovt : core.isInReadOnlyMode = true ∨
      canSendVTMouseInput core mods = false) :
    (pointerReleased core s point mods f tp ty).1.singleClickTouchdownPos =
      none ∧
    (pointerReleased core s point mods f tp
      ty).1.singleClickTouchdownTerminalPos = none ∧
    (core.copyOnSelect = true ∧
        point.props.pointerUpdateKind = .leftButtonReleased ∧
        s.selectionNeedsToBeCopied = true →
      (pointerReleased core s point mods f tp ty).2 =
        [.copySelectionToClipboard false] ∧
      (pointerReleased core s point mods f tp
        ty).1.selectionNeedsToBeCopied = false) ∧
    (¬(core.copyOnSelect = true ∧
        point.props.pointerUpdateKind = .leftButtonReleased ∧
        s.selectionNeedsToBeCopied = true) →
      (pointerReleased core s point mods f tp ty).2 = [] ∧
      (pointerReleased core s point mods f tp
        ty).1.selectionNeedsToBeCopied = s.selectionNeedsToBeCopied) ∧
    (∀ (core' : Core) (s' : State) (pt' : PointerPoint) (m' : Modifiers)
        (f' : Bool) (tp' : TilPoint),
      (pointerReleased core' s' pt' m' f' tp' .touch).1.touchAnchor = none ∧
      (pointerReleased core' s' pt' m' f' tp'
        .touch).1.singleClickTouchdownPos = none) := by
  have hcond : ¬(¬core.isInReadOnlyMode = true ∧
      canSendVTMouseInput core mods = true) := by
    rcases hnovt with h | h <;> simp [h]
  rcases hty with rfl | rfl <;>
  · refine ⟨?_, ?_, ?_, ?_, ?_⟩
    · simp only [pointerReleased]
      rw [if_neg hcond]
    · simp only [pointerReleased]
      rw [if_neg hcond]
    · intro hc
      simp only [pointerReleased]
      rw [if_neg hcond, if_pos hc]
      exact ⟨rfl, rfl⟩
    · intro hc
      simp only [pointerReleased]
      rw [if_neg hcond, if_neg hc]
      exact ⟨rfl, rfl⟩
    · intro core' s' pt' m' f' tp'
      exact ⟨rfl, rfl⟩

/-- C3 (witness): with copy-on-select on, VT mode off, a left release with a
pending copy copies once (non-single-line), clears the flag and clears the
touchdown state. -/
theorem C3_witness :
    (pointerReleased coreCopy sDrag ptLeftRelease mods0 true ⟨0, 0⟩
      .mouse).1.singleClickTouchdownPos = none ∧
    (pointerReleased coreCopy sDrag ptLeftRelease mods0 true ⟨0, 0⟩
      .mouse).2 = [.copySelectionToClipboard false] ∧
    (pointerReleased coreCopy sDrag ptLeftRelease mods0 true ⟨0, 0⟩
      .mouse).1.selectionNeedsToBeCopied = false := by
  have h := C3_release coreCopy sDrag ptLeftRelease mods0 true ⟨0, 0⟩ .mouse
    (Or.inl rfl) (Or.inr (by decide))
  exact ⟨h.1, (h.2.2.1 ⟨rfl, rfl, rfl⟩).1, (h.2.2.1 ⟨rfl, rfl, rfl⟩).2⟩

/-- C2 (counterexample): with the touchdown at screen/cell origin and a
left-held focused move to screen x = 100 whose cell is (12,0) — far past the
quarter-cell threshold (2 DIPs for an 8×16 font at scale 1) — the selection
anchor is set at the *current* cell (12,0), not at the drag-start (touchdown)
cell (0,0); moreover the same move without focus performs no selection update
at all (only `UpdateHoveredCell`). -/
theorem C2_counterexample :
    sTouchdown00.singleClickTouchdownTerminalPos = some ⟨0, 0⟩ ∧
    pointerMoved baseCore sTouchdown00 ptDragFar mods0 true ⟨12, 0⟩ .mouse =
      ({ sTouchdown00 with
          singleClickTouchdownPos := none
          singleClickTouchdownTerminalPos := none
          selectionNeedsToBeCopied := true },
       [.setSelectionAnchor ⟨12, 0⟩, .setEndSelectionPoint ⟨12, 0⟩,
        .updateHoveredCell ⟨12, 0⟩]) ∧
    (⟨12, 0⟩ : TilPoint) ≠ (⟨0, 0⟩ : TilPoint) ∧
    pointerMoved baseCore sTouchdown00 ptDragFar mods0 false ⟨12, 0⟩ .mouse =
      (sTouchdown00, [.updateHoveredCell ⟨12, 0⟩]) := by
  refine ⟨rfl, ?_, by decide, ?_⟩
  · norm_num [pointerMoved, moveSelectionUpdate, setEndSelectionPoint,
      canSendVTMouseInput, sqrtGe, distSq, fontSizeInDips, roundHalfAway,
      baseCore, sTouchdown00, ptDragFar, mods0, initState]
  · norm_num [pointerMoved, baseCore, sTouchdown00, ptDragFar, mods0,
      canSendVTMouseInput, initState]

/-- C2 (corrected): during a focused left-button drag (VT forwarding not
taken), once the euclidean distance from the touchdown point reaches a
quarter of the smaller font-cell dimension in DIPs, the selection anchor is
set at the *current* cell (the move event's cell, not the touchdown cell)
and the touchdown state is cleared; and every focused move with the left
button held extends the selection end to the current cell and sets the
pending-copy flag. -/
theorem C2_selection_drag (core : Core) (s : State) (point : PointerPoint)
    (mods : Modifiers) (f : Bool) (tp : TilPoint) (ty : DeviceType)
    (hty : ty = .mouse ∨ ty = .pen)
    (hf : f = true)
    (hnovt : core.isInReadOnlyMode = true ∨
      canSendVTMouseInput core mods = false)
    (hleft : point.props.isLeftButtonPressed = true) :
    (∀ td, s.singleClickTouchdownPos = some td →
      sqrtGe (distSq point.position td)
        (((min (fontSizeInDips core).1 (fontSizeInDips core).2 : ℤ) : ℚ) / 4)
        = true →
      pointerMoved core s point mods f tp ty =
        ({ s with
            singleClickTouchdownPos := none
            singleClickTouchdownTerminalPos := none
            selectionNeedsToBeCopied := true },
         [.setSelectionAnchor tp, .setEndSelectionPoint tp,
          .updateHoveredCell tp])) ∧
    ((pointerMoved core s point mods f tp ty).1.selectionNeedsToBeCopied =
      true ∧
     Effect.setEndSelectionPoint tp ∈
       (pointerMoved core s point mods f tp ty).2) := by
  have hcond : ¬(f = true ∧ ¬core.isInReadOnlyMode = true ∧
      canSendVTMouseInput core mods = true) := by
    rcases hnovt with h | h <;> simp [h]
  have hleft2 : (f = true ∧ point.props.isLeftButtonPressed = true) :=
    ⟨hf, hleft⟩
  rcases hty with rfl | rfl <;>
  · constructor
    · intro td hs hthr
      simp only [pointerMoved]
      rw [if_neg hcond, if_pos hleft2]
      simp only [moveSelectionUpdate, hs]
      rw [if_pos hthr]
      simp [setEndSelectionPoint]
    · simp only [pointerMoved]
      rw [if_neg hcond, if_pos hleft2]
      rcases hs : s.singleClickTouchdownPos with _ | td <;>
        simp only [moveSelectionUpdate, hs]
      · simp [setEndSelectionPoint]
      · split_ifs <;> simp [setEndSelectionPoint]

/-- C2 (witness): the concrete drag of the counterexample fixture
instantiates the amended claim: the anchor lands on the current cell and the
end point is extended with the pending-copy flag set. -/
theorem C2_witness :
    pointerMoved baseCore sTouchdown00 ptDragFar mods0 true ⟨12, 0⟩ .mouse =
      ({ sTouchdown00 with
          singleClickTouchdownPos := none
          singleClickTouchdownTerminalPos := none
          selectionNeedsToBeCopied := true },
       [.setSelectionAnchor ⟨12, 0⟩, .setEndSelectionPoint ⟨12, 0⟩,
        .updateHoveredCell ⟨12, 0⟩]) := by
  have h := (C2_selection_drag baseCore sTouchdown00 ptDragFar mods0 true
    ⟨12, 0⟩ .mouse (Or.inl rfl) rfl (Or.inr (by decide)) (by decide)).1
    ⟨0, 0⟩ rfl
    (by norm_num [sqrtGe, distSq, fontSizeInDips, roundHalfAway, baseCore,
      ptDragFar])
  exact h

/-- C8 (counterexample): an *unfocused* touch move with a live anchor and a
vertical delta well past half a cell height produces no viewport-scroll
request and leaves the anchor unchanged — the handler requires focus, which
the claim does not mention. -/
theorem C8_counterexample :
    sAnchor100.touchAnchor = some ⟨100, 100⟩ ∧
    |ptTouchMoveFar.props.contactRect.y - (100 : ℚ)| >
      (((fontSizeInDips baseCore).2 : ℤ) : ℚ) / 2 ∧
    pointerMoved baseCore sAnchor100 ptTouchMoveFar mods0 false ⟨0, 0⟩
      .touch = (sAnchor100, []) := by
  refine ⟨rfl, ?_, ?_⟩
  · have habs : |(48 : ℚ) / 5| = 48 / 5 := abs_of_pos (by norm_num)
    norm_num [ptTouchMoveFar, fontSizeInDips, roundHalfAway, baseCore, habs]
  · norm_num [pointerMoved, sAnchor100, initState]

/-- C8 (corrected): for every *focused* touch move while an anchor is live:
if the vertical delta `dy` between the contact point and the anchor satisfies
`|dy|` greater than half the font-cell height in DIPs, exactly one
viewport-scroll request is made with new offset `(-dy / cellHeight) +
currentOffset` and the anchor is re-set to the contact point; if `|dy|` does
not exceed the threshold nothing happens; and a touch release clears the
anchor. -/
theorem C8_touch_pan (core : Core) (s : State) (point : PointerPoint)
    (mods : Modifiers) (f : Bool) (tp : TilPoint) (anchor : Point)
    (hf : f = true)
    (hanchor : s.touchAnchor = some anchor) :
    ((|point.props.contactRect.y - anchor.y| >
        (((fontSizeInDips core).2 : ℤ) : ℚ) / 2 →
      pointerMoved core s point mods f tp .touch =
        ({ s with touchAnchor := some point.props.contactRect },
         [.userScrollViewport
            (-1 * ((point.props.contactRect.y - anchor.y) /
                (((fontSizeInDips core).2 : ℤ) : ℚ)) + core.scrollOffset)]))
      ∧
     (¬(|point.props.contactRect.y - anchor.y| >
        (((fontSizeInDips core).2 : ℤ) : ℚ) / 2) →
      pointerMoved core s point mods f tp .touch = (s, []))) ∧
    (∀ (core' : Core) (s' : State) (pt' : PointerPoint) (m' : Modifiers)
        (f' : Bool) (tp' : TilPoint),
      (pointerReleased core' s' pt' m' f' tp' .touch).1.touchAnchor =
        none) := by
  refine ⟨⟨?_, ?_⟩, ?_⟩
  · intro h
    simp only [pointerMoved, hanchor]
    rw [if_pos hf, if_pos h]
  · intro h
    simp only [pointerMoved, hanchor]
    rw [if_pos hf, if_neg h]
  · intro core' s' pt' m' f' tp'
    rfl

/-- C8 (witness): a focused touch drag from anchor (100,100) to
(100, 109.6) with a 16-DIP cell height scrolls by −0.6 rows (to offset −3/5
from 0) and re-anchors at the new contact point. -/
theorem C8_witness :
    pointerMoved baseCore sAnchor100 ptTouchMoveFar mods0 true ⟨0, 0⟩
      .touch =
      ({ sAnchor100 with touchAnchor := some ⟨100, 548 / 5⟩ },
       [.userScrollViewport (-(3 / 5))]) := by
  have h := (C8_touch_pan baseCore sAnchor100 ptTouchMoveFar mods0 true
    ⟨0, 0⟩ ⟨100, 100⟩ rfl rfl).1.1
    (by
      have habs : |(48 : ℚ) / 5| = 48 / 5 := abs_of_pos (by norm_num)
      norm_num [ptTouchMoveFar, fontSizeInDips, roundHalfAway, baseCore,
        habs])
  rw [h]
  norm_num [ptTouchMoveFar, fontSizeInDips, roundHalfAway, baseCore,
    sAnchor100]

theorem moveSelectionUpdate_anchor (core : Core) (s : State) (cpos : Point)
    (tp : TilPoint) :
    (moveSelectionUpdate core s cpos tp).1.touchAnchor = s.touchAnchor := by
  rcases hs : s.singleClickTouchdownPos with _ | td <;>
    simp only [moveSelectionUpdate, hs, setEndSelectionPoint] <;>
    first
      | rfl
      | (split_ifs <;> rfl)

theorem pointerPressed_ok_anchor (core : Core) (s : State)
    (point : PointerPoint) (mods : Modifiers) (f : Bool) (tp : TilPoint)
    (ty : DeviceType) (hty : ty = .mouse ∨ ty = .pen) (s' : State)
    (effs : List Effect)
    (h : pointerPressed core s point mods f tp ty = .ok (s', effs)) :
    s'.touchAnchor = s.touchAnchor := by
  rcases hty with rfl | rfl <;>
  · simp only [pointerPressed] at h
    by_cases h1 : point.props.isLeftButtonPressed = true ∧ mods.ctrl = true ∧
        core.hyperlinkAt tp ≠ ""
    · rw [if_pos h1] at h
      rcases hn : numberOfClicks s point.position point.timestamp with u | p
      · rw [hn] at h
        simp at h
      · obtain ⟨c, s1⟩ := p
        have hs1 := numberOfClicks_ok_inv _ _ _ _ _ hn
        simp only [hn] at h
        split_ifs at h <;>
        · simp only [Except.ok.injEq, Prod.mk.injEq] at h
          obtain ⟨hA, hB⟩ := h
          rw [← hA, hs1]
    · rw [if_neg h1] at h
      by_cases h2 : canSendVTMouseInput core mods = true
      · rw [if_pos h2] at h
        simp only [Except.ok.injEq, Prod.mk.injEq] at h
        obtain ⟨hA, hB⟩ := h
        rw [← hA]
      · rw [if_neg h2] at h
        by_cases h3 : point.props.isLeftButtonPressed = true
        · rw [if_pos h3] at h
          rcases hn : numberOfClicks s point.position point.timestamp
            with u | p
          · rw [hn] at h
            simp at h
          · obtain ⟨c, s1⟩ := p
            have hs1 := numberOfClicks_ok_inv _ _ _ _ _ hn
            simp only [hn] at h
            simp only [Except.ok.injEq, Prod.mk.injEq] at h
            obtain ⟨hA, hB⟩ := h
            rw [← hA]
            split_ifs <;> simp [hs1]
        · rw [if_neg h3] at h
          by_cases h4 : point.props.isRightButtonPressed = true
          · rw [if_pos h4] at h
            split_ifs at h <;>
            · simp only [copySelectionToClipboard, Except.ok.injEq,
                Prod.mk.injEq] at h
              obtain ⟨hA, hB⟩ := h
              rw [← hA]
          · rw [if_neg h4] at h
            simp only [Except.ok.injEq, Prod.mk.injEq] at h
            obtain ⟨hA, hB⟩ := h
            rw [← hA]

theorem pointerMoved_anchor (core : Core) (s : State) (point : PointerPoint)
    (mods : Modifiers) (f : Bool) (tp : TilPoint) (ty : DeviceType)
    (hty : ty = .mouse ∨ ty = .pen) :
    (pointerMoved core s point mods f tp ty).1.touchAnchor =
      s.touchAnchor := by
  rcases hty with rfl | rfl <;>
  · simp only [pointerMoved]
    split_ifs <;>
      first
        | rfl
        | (simp only [setEndSelectionPoint]
           exact moveSelectionUpdate_anchor core s point.position tp)

theorem pointerReleased_anchor (core : Core) (s : State)
    (point : PointerPoint) (mods : Modifiers) (f : Bool) (tp : TilPoint)
    (ty : DeviceType) (hty : ty = .mouse ∨ ty = .pen) :
    (pointerReleased core s point mods f tp ty).1.touchAnchor =
      s.touchAnchor := by
  rcases hty with rfl | rfl <;>
  · simp only [pointerReleased, copySelectionToClipboard]
    split_ifs <;> rfl

theorem pointerMoved_touch_touchdown (core : Core) (s : State)
    (point : PointerPoint) (mods : Modifiers) (f : Bool) (tp : TilPoint) :
    (pointerMoved core s point mods f tp
      .touch).1.singleClickTouchdownPos = s.singleClickTouchdownPos := by
  rcases hs : s.touchAnchor with _ | a <;>
    simp only [pointerMoved, hs] <;>
    first
      | rfl
      | (split_ifs <;> rfl)

theorem stepState_anchor_nontouch (s : State) (e : PEvent)
    (h : e.device ≠ .touch) :
    (stepState s e).touchAnchor = s.touchAnchor := by
  cases e with
  | pressed core pt m f tp ty =>
    have hty : ty = .mouse ∨ ty = .pen := by
      cases ty
      · exact Or.inl rfl
      · exact Or.inr rfl
      · exact absurd rfl h
    simp only [stepState]
    rcases hp : pointerPressed core s pt m f tp ty with u | p
    · rfl
    · obtain ⟨s', effs⟩ := p
      exact pointerPressed_ok_anchor core s pt m f tp ty hty s' effs hp
  | moved core pt m f tp ty =>
    have hty : ty = .mouse ∨ ty = .pen := by
      cases ty
      · exact Or.inl rfl
      · exact Or.inr rfl
      · exact absurd rfl h
    exact pointerMoved_anchor core s pt m f tp ty hty
  | released core pt m f tp ty =>
    have hty : ty = .mouse ∨ ty = .pen := by
      cases ty
      · exact Or.inl rfl
      · exact Or.inr rfl
      · exact absurd rfl h
    exact pointerReleased_anchor core s pt m f tp ty hty

theorem stepState_touchdown_touch (s : State) (e : PEvent)
    (hdev : e.device = .touch)
    (hs : s.singleClickTouchdownPos = none) :
    (stepState s e).singleClickTouchdownPos = none := by
  cases e with
  | pressed core pt m f tp ty =>
    cases ty
    · exact absurd hdev (by simp [PEvent.device])
    · exact absurd hdev (by simp [PEvent.device])
    · simpa [stepState, pointerPressed] using hs
  | moved core pt m f tp ty =>
    cases ty
    · exact absurd hdev (by simp [PEvent.device])
    · exact absurd hdev (by simp [PEvent.device])
    · rw [stepState, pointerMoved_touch_touchdown]
      exact hs
  | released core pt m f tp ty =>
    cases ty
    · exact absurd hdev (by simp [PEvent.device])
    · exact absurd hdev (by simp [PEvent.device])
    · rfl

theorem runEvents_anchor_nontouch (es : List PEvent) (s : State)
    (h : ∀ e ∈ es, e.device ≠ DeviceType.touch) :
    (runEvents s es).touchAnchor = s.touchAnchor := by
  induction es generalizing s with
  | nil => rfl
  | cons e es ih =>
    show (runEvents (stepState s e) es).touchAnchor = s.touchAnchor
    rw [ih (stepState s e) (fun e' he' => h e' (List.mem_cons_of_mem e he')),
      stepState_anchor_nontouch s e (h e (List.mem_cons_self e es))]

theorem runEvents_touchdown_touch (es : List PEvent) (s : State)
    (h : ∀ e ∈ es, e.device = DeviceType.touch)
    (hs : s.singleClickTouchdownPos = none) :
    (runEvents s es).singleClickTouchdownPos = none := by
  induction es generalizing s with
  | nil => exact hs
  | cons e es ih =>
    show (runEvents (stepState s e) es).singleClickTouchdownPos = none
    exact ih (stepState s e)
      (fun e' he' => h e' (List.mem_cons_of_mem e he'))
      (stepState_touchdown_touch s e (h e (List.mem_cons_self e es)) hs)

/-- C4 (counterexample): from the initial state, a mouse left press (which
captures a `SelectionTouchdown`) followed by a touch press (which captures a
`TouchAnchor` without clearing the touchdown) reaches a state where BOTH are
non-empty. -/
theorem C4_counterexample :
    (runEvents (initState 500000) evtsC4).touchAnchor = some ⟨5, 5⟩ ∧
    (runEvents (initState 500000) evtsC4).singleClickTouchdownPos =
      some ⟨0, 0⟩ :=
  ⟨by decide, by decide⟩

/-- C4 (corrected): the mutual-exclusion invariant holds for event sequences
of a single device class: touch events never create a `SelectionTouchdown`
and mouse/pen events never create a `TouchAnchor`, so after any all-mouse/pen
sequence or any all-touch sequence from the initial state, at most one of the
two is non-empty; interleaving device classes can make both live at once. -/
theorem C4_single_device_exclusive (timer : Nat) (es : List PEvent) :
    ((∀ e ∈ es, e.device ≠ DeviceType.touch) →
      ¬((runEvents (initState timer) es).touchAnchor.isSome = true ∧
        (runEvents (initState timer) es).singleClickTouchdownPos.isSome =
          true)) ∧
    ((∀ e ∈ es, e.device = DeviceType.touch) →
      ¬((runEvents (initState timer) es).touchAnchor.isSome = true ∧
        (runEvents (initState timer) es).singleClickTouchdownPos.isSome =
          true)) := by
  constructor
  · intro h hc
    have ha := runEvents_anchor_nontouch es (initState timer) h
    rw [ha] at hc
    simp [initState] at hc
  · intro h hc
    have ht := runEvents_touchdown_touch es (initState timer) h rfl
    rw [ht] at hc
    simp at hc

/-- C4 (witness): after a single mouse left press from the initial state, the
two drag states are not simultaneously non-empty. -/
theorem C4_witness :
    ¬((runEvents (initState 500000)
        [PEvent.pressed baseCore ptLeftPress mods0 true ⟨0, 0⟩
          .mouse]).touchAnchor.isSome = true ∧
      (runEvents (initState 500000)
        [PEvent.pressed baseCore ptLeftPress mods0 true ⟨0, 0⟩
          .mouse]).singleClickTouchdownPos.isSome = true) :=
  (C4_single_device_exclusive 500000 _).1
    (by
      intro e he
      rcases List.mem_singleton.mp he with rfl
      simp [PEvent.device])

end ControlInteractivity
